import Mathlib

/-!
Verification of unibonn/indico-bookings2ics (src/get_indico_events_to_ics.py)
against its natural-language specification.

The Python source is shallowly embedded below. Pure computations (query-string
construction, timestamp parsing, event mapping, calendar building, index-file
formatting) become Lean functions translated line by line from the source.
HTTP exchanges are modelled as data: request-builder functions produce a
Request value describing exactly the request the source would issue, and
response handling is a function of the already-received response value.
The driver (the module's main block) is modelled as the trace of externally
visible actions it performs, in the order the source performs them.
-/

namespace IndicoIcs

/-! ## URL encoding (urllib.parse.urlencode with the default quote_plus) -/

/-- Value of a decimal digit character. -/
def digitVal (c : Char) : Nat := c.toNat - '0'.toNat

/-- UTF-8 bytes of a character (Python percent-encodes each UTF-8 byte). -/
def utf8Bytes (c : Char) : List Nat :=
  let n := c.toNat
  if n < 0x80 then [n]
  else if n < 0x800 then [0xC0 + n / 0x40, 0x80 + n % 0x40]
  else if n < 0x10000 then
    [0xE0 + n / 0x1000, 0x80 + (n / 0x40) % 0x40, 0x80 + n % 0x40]
  else
    [0xF0 + n / 0x40000, 0x80 + (n / 0x1000) % 0x40, 0x80 + (n / 0x40) % 0x40,
      0x80 + n % 0x40]

/-- Uppercase hexadecimal digit, as used by urllib percent-escapes. -/
def hexDigit (n : Nat) : Char :=
  if n < 10 then Char.ofNat ('0'.toNat + n) else Char.ofNat ('A'.toNat + n - 10)

/-- Percent-escape of one byte: `%XX` with uppercase hex. -/
def pctEncodeByte (b : Nat) : List Char := ['%', hexDigit (b / 16), hexDigit (b % 16)]

/-- Characters urllib.parse.quote never escapes (ASCII alphanumerics and `_.-~`). -/
def isUrlSafe (c : Char) : Bool :=
  c.isAlphanum || c = '_' || c = '.' || c = '-' || c = '~'

/-- urllib.parse.quote_plus on one string: safe characters kept, space becomes
`+`, every other character is percent-escaped byte by byte. -/
def quote_plus (s : String) : String :=
  ⟨(s.data.map (fun c =>
      if isUrlSafe c then [c]
      else if c = ' ' then ['+']
      else (utf8Bytes c).map pctEncodeByte |>.flatten)).flatten⟩

/-- urllib.parse.urlencode on a list of (key, value) pairs:
`k1=v1&k2=v2&...` with both sides quote_plus-encoded. -/
def urlencode (items : List (String × String)) : String :=
  String.intercalate "&" (items.map (fun p => quote_plus p.1 ++ "=" ++ quote_plus p.2))

/-! ## build_indico_request (source lines 39-45) -/

/-- Embedding of `build_indico_request(path, params, only_public=False)`.
`params` is the list of the mapping's (key, value) pairs (`params.items()`).
The source appends `('onlypublic', 'yes')` when `only_public` is set, returns
`path` unchanged when the resulting item list is empty, and otherwise returns
`'%s?%s' % (path, urlencode(items))`. -/
def build_indico_request (path : String) (params : List (String × String))
    (only_public : Bool) : String :=
  let items := if only_public then params ++ [("onlypublic", "yes")] else params
  if items = [] then path else path ++ "?" ++ urlencode items

/-! ## HTTP request model (exec_get_request / exec_post_request, lines 47-55) -/

inductive Method where
  | get
  | post
deriving DecidableEq, Repr

/-- A fully-described HTTP request as the source would issue it. -/
structure Request where
  method : Method
  url : String
  headers : List (String × String)
  body : Option String
deriving DecidableEq, Repr

/-- Python `f-string` interpolation of a possibly-absent token:
`None` prints as the string `None`. -/
def pyShowOpt : Option String → String
  | none => "None"
  | some s => s

/-- The header dictionary both request helpers build (source lines 48 and 53). -/
def req_headers (api_token : Option String) : List (String × String) :=
  [("Accept", "application/json"), ("Content-Type", "application/json"),
    ("Authorization", "Bearer " ++ pyShowOpt api_token)]

/-- Embedding of `exec_get_request`: the GET request it would issue. -/
def exec_get_request (indico_instance request_path : String)
    (api_token : Option String) : Request :=
  { method := .get
    url := indico_instance ++ request_path
    headers := req_headers api_token
    body := none }

/-- Embedding of `exec_post_request`: the POST request it would issue. -/
def exec_post_request (indico_instance request_path : String) (data : String)
    (api_token : Option String) : Request :=
  { method := .post
    url := indico_instance ++ request_path
    headers := req_headers api_token
    body := some data }

/-! ## get_jresp (source lines 57-63) -/

/-- Outcome of `get_jresp`: either the parsed value is returned, or the
diagnostic is printed and the process terminates (the source prints
"Error parsing JSON response!" and then aborts; its `os.exit(1)` call raises
`AttributeError`, which likewise terminates the run uncaught), so no value
ever reaches the caller on the failure path. -/
inductive JrespOutcome (α : Type) where
  | fatal (printed : String)
  | ok (a : α)
deriving DecidableEq

/-- Embedding of `get_jresp`. Its argument is the result of the library call
`req.json()`: `none` when the response body is not parseable as JSON. -/
def get_jresp {α : Type} (parsed : Option α) : JrespOutcome α :=
  match parsed with
  | none => .fatal "Error parsing JSON response!"
  | some j => .ok j

/-! ## get_room_ids (source lines 65-72) -/

/-- Embedding of the request issued by `get_room_ids`. `API_TOKEN` is the
module-level global read inside the function; `api_token` is the function's
own parameter, which the source never uses (line 69 passes
`api_token=API_TOKEN`). -/
def get_room_ids_request (API_TOKEN : String) (indico_instance : String)
    (api_token : Option String) : Request :=
  exec_get_request indico_instance (build_indico_request "/rooms/api/rooms" [] false)
    (some API_TOKEN)

/-! ## get_bookings (source lines 74-84) -/

/-- `json.dumps({'room_ids': [room_id]})` with Python's default separators. -/
def json_dumps_room_ids (room_id : Nat) : String :=
  "\x7b\"room_ids\": [" ++ toString room_id ++ "]\x7d"

/-- Embedding of the request issued by `get_bookings`. -/
def get_bookings_request (indico_instance : String) (room_id : Nat)
    (start_date end_date : String) (api_token : Option String) : Request :=
  exec_post_request indico_instance
    (build_indico_request "/rooms/api/calendar"
      [("start_date", start_date), ("end_date", end_date)] false)
    (json_dumps_room_ids room_id) api_token

/-- One element of the JSON-array response to the calendar POST: its
`bookings` field is a JSON object, modelled as its (key, value) pairs in the
order the JSON object yields them. The booking payloads themselves are left
opaque (type parameter). -/
structure BookingsElem (β : Type) where
  bookings : List (String × β)
deriving DecidableEq

/-- Embedding of the response handling of `get_bookings`:
`list(jresp[0]['bookings'].values())`. `none` models the IndexError on an
empty response array. -/
def get_bookings_result {β : Type} (jresp : List (BookingsElem β)) : Option (List β) :=
  (jresp.get? 0).map (fun elem => elem.bookings.map Prod.snd)

/-! ## get_date_time_obj (source lines 86-90)

`datetime.strptime(s, '%Y-%m-%d %H:%M:%S')` is embedded faithfully:
`%Y` matches exactly four digits; `%m`, `%d`, `%H`, `%M`, `%S` match one or
two digits within their range, preferring two (the regex alternations
`1[0-2]|0[1-9]|[1-9]` and friends are equivalent to this rule); no input may
remain after the pattern; and the datetime constructor then validates the day
against the month length and requires year at least 1. -/

/-- Gregorian leap-year rule, as used by Python's datetime. -/
def isLeap (y : Nat) : Bool := (y % 4 = 0 && y % 100 ≠ 0) || y % 400 = 0

/-- Number of days in a month, as validated by the datetime constructor. -/
def daysInMonth (y m : Nat) : Nat :=
  if m = 2 then (if isLeap y then 29 else 28)
  else if m = 4 ∨ m = 6 ∨ m = 9 ∨ m = 11 then 30
  else 31

/-- A naive (timezone-unaware) datetime as produced by `datetime.strptime`. -/
structure NaiveDT where
  year : Nat
  month : Nat
  day : Nat
  hour : Nat
  minute : Nat
  second : Nat
deriving DecidableEq, Repr

/-- A timezone-aware datetime, as produced by `pytz.utc.localize`: the same
clock components with a timezone name attached (no conversion). -/
structure AwareDT where
  naive : NaiveDT
  tzname : String
deriving DecidableEq, Repr

/-- Parse exactly four decimal digits (strptime directive %Y). -/
def parseYear4 : List Char → Option (Nat × List Char)
  | a :: b :: c :: d :: rest =>
    if a.isDigit ∧ b.isDigit ∧ c.isDigit ∧ d.isDigit then
      some (1000 * digitVal a + 100 * digitVal b + 10 * digitVal c + digitVal d, rest)
    else none
  | _ => none

/-- Parse a one- or two-digit number with value in [lo, hi], preferring the
two-digit reading (strptime directives %m, %d, %H, %M, %S). -/
def parseNum2 (lo hi : Nat) : List Char → Option (Nat × List Char)
  | a :: b :: rest =>
    if a.isDigit ∧ b.isDigit ∧ lo ≤ 10 * digitVal a + digitVal b ∧
        10 * digitVal a + digitVal b ≤ hi then
      some (10 * digitVal a + digitVal b, rest)
    else if a.isDigit ∧ lo ≤ digitVal a ∧ digitVal a ≤ hi then
      some (digitVal a, b :: rest)
    else none
  | [a] =>
    if a.isDigit ∧ lo ≤ digitVal a ∧ digitVal a ≤ hi then some (digitVal a, [])
    else none
  | [] => none

/-- Require a literal character next. -/
def expectChar (c : Char) : List Char → Option (List Char)
  | a :: rest => if a = c then some rest else none
  | [] => none

/-- Embedding of `datetime.strptime(s, '%Y-%m-%d %H:%M:%S')`: `none` models
the ValueError on a non-matching string or an invalid calendar date. -/
def strptime_Ymd_HMS (s : String) : Option NaiveDT := do
  let l0 := s.data
  let (y, l1) ← parseYear4 l0
  let l2 ← expectChar '-' l1
  let (mo, l3) ← parseNum2 1 12 l2
  let l4 ← expectChar '-' l3
  let (d, l5) ← parseNum2 1 31 l4
  let l6 ← expectChar ' ' l5
  let (h, l7) ← parseNum2 0 23 l6
  let l8 ← expectChar ':' l7
  let (mi, l9) ← parseNum2 0 59 l8
  let l10 ← expectChar ':' l9
  let (se, l11) ← parseNum2 0 59 l10
  if l11 = [] ∧ 1 ≤ y ∧ d ≤ daysInMonth y mo then
    some ⟨y, mo, d, h, mi, se⟩
  else none

/-- Python `s.replace("T", " ")` for the single-character pattern: every
occurrence of `T` becomes a space. -/
def replace_T_with_space (s : String) : String :=
  ⟨s.data.map (fun c => if c = 'T' then ' ' else c)⟩

/-- Embedding of `get_date_time_obj`: replace the `T` separator with a space,
parse as a naive timestamp, then `pytz.utc.localize` attaches the UTC label
to the unchanged clock components. -/
def get_date_time_obj (bookings_date_time_str : String) : Option AwareDT :=
  (strptime_Ymd_HMS (replace_T_with_space bookings_date_time_str)).map
    (fun dt => ⟨dt, "UTC"⟩)

/-! ## get_event (source lines 92-98) -/

structure Reservation where
  booking_reason : String
  booked_for_name : String
deriving DecidableEq, Repr

/-- A raw booking record, with the fields `get_event` reads. -/
structure Booking where
  start_dt : String
  end_dt : String
  reservation : Reservation
deriving DecidableEq, Repr

/-- The calendar event `get_event` assembles: dtstart, dtend, summary and
organizer, in the source's field names. -/
structure CalendarEvent where
  dtstart : AwareDT
  dtend : AwareDT
  summary : String
  organizer : String
deriving DecidableEq, Repr

/-- Embedding of `get_event`: `none` models the ValueError aborting the run
when either date string fails to parse. -/
def get_event (booking : Booking) : Option CalendarEvent := do
  let s ← get_date_time_obj booking.start_dt
  let e ← get_date_time_obj booking.end_dt
  some ⟨s, e, booking.reservation.booking_reason, booking.reservation.booked_for_name⟩

/-! ## get_calendar (source lines 100-107) -/

/-- Embedding of `get_calendar`: the outer loop walks the groups, the inner
loop walks `range(len(booking))` and indexes `booking[index]`, adding each
mapped event to the calendar in encounter order. The calendar is its event
list in insertion order. -/
def get_calendar (bookings : List (List Booking)) : Option (List CalendarEvent) :=
  bookings.foldlM
    (fun calendar booking =>
      (List.range booking.length).foldlM
        (fun cal index =>
          match booking.get? index with
          | some b => (get_event b).map (fun event => cal ++ [event])
          | none => none)
        calendar)
    []

/-! ## Index file and driver (source lines 109-133) -/

/-- `sorted(room_ids.items())`: Python sorts the (id, name) tuples
lexicographically; with the distinct keys of a dict this is ascending order
of the numeric id, and insertion sort on the key is stable, so it agrees. -/
def sortedRooms (rooms : List (Nat × String)) : List (Nat × String) :=
  List.insertionSort (fun a b => a.1 ≤ b.1) rooms

/-- One line of `room_id_mappings.txt`: `'{}: {}\n'.format(room_id, room_name)`. -/
def room_line (p : Nat × String) : String :=
  toString p.1 ++ ": " ++ p.2 ++ "\n"

/-- The lines of the index file, in the order the driver writes them. -/
def index_lines (rooms : List (Nat × String)) : List String :=
  (sortedRooms rooms).map room_line

/-- Full content of `room_id_mappings.txt` after the run. -/
def index_file (rooms : List (Nat × String)) : String :=
  String.join (index_lines rooms)

/-- Externally visible actions of the driver, in execution order. -/
inductive Ev where
  | printed (msg : String)
  | exited
  | httpGetRooms
  | mkdirIcalendars
  | indexOpened
  | httpPostBookings (room : Nat)
  | calendarBuilt (room : Nat)
  | calendarFileWritten (room : Nat)
  | indexLineWritten (room : Nat)
deriving DecidableEq, Repr

/-- The per-room body of the driver loop (source lines 129-133): fetch the
room's bookings, build its calendar, save `<room_id>.ics`, then immediately
write that room's line into the already-open index file. -/
def per_room_block (p : Nat × String) : List Ev :=
  [.httpPostBookings p.1, .calendarBuilt p.1, .calendarFileWritten p.1,
    .indexLineWritten p.1]

/-- Trace of the driver after configuration succeeded (source lines 125-133):
fetch the room list, create the output directory, open (truncate) the index
file, then process the rooms one at a time in sorted order. -/
def main_trace (rooms : List (Nat × String)) : List Ev :=
  [.httpGetRooms, .mkdirIcalendars, .indexOpened] ++
    (sortedRooms rooms).flatMap per_room_block

/-- The configuration record the main block extracts. -/
structure Config where
  indico_instance : String
  api_token : String
  start_date : String
  end_date : String
deriving DecidableEq, Repr

/-- Embedding of the four dict accesses of source lines 121-124 on the parsed
configuration mapping (given as the dict's entries, keys unique). A missing
key is a KeyError carrying that key's name; no default is substituted. -/
def config_extract (file : List (String × String)) : Except String Config :=
  match file.lookup "indico_instance" with
  | none => .error "indico_instance"
  | some i =>
    match file.lookup "api_token" with
    | none => .error "api_token"
    | some a =>
      match file.lookup "start_date" with
      | none => .error "start_date"
      | some s =>
        match file.lookup "end_date" with
        | none => .error "end_date"
        | some e => .ok ⟨i, a, s, e⟩

/-- Full driver trace (source lines 115-133). The first argument is the
outcome of `yaml.safe_load`: on a YAMLError the source prints the exception
and falls through to line 121, where the unassigned `config` raises an
uncaught NameError that aborts the run; a missing key raises an uncaught
KeyError. Both abort before any network request. -/
def run_driver (parse_result : Except String (List (String × String)))
    (rooms : List (Nat × String)) : List Ev :=
  match parse_result with
  | .error exc => [.printed exc, .exited]
  | .ok file =>
    match config_extract file with
    | .error _ => [.exited]
    | .ok _ => main_trace rooms

/-- Whether an action is a network call. -/
def isNetworkEv : Ev → Bool
  | .httpGetRooms => true
  | .httpPostBookings _ => true
  | _ => false

/-! ## Concrete test fixtures (from the spec's worked examples) -/

/-- Two groups of bookings, of sizes one and two. -/
def sampleGroups : List (List Booking) :=
  [[⟨"2024-03-01T09:00:00", "2024-03-01T10:00:00", ⟨"Seminar", "A. Example"⟩⟩],
    [⟨"2024-03-02T09:00:00", "2024-03-02T10:00:00", ⟨"Lecture", "B. Example"⟩⟩,
      ⟨"2024-03-02T11:00:00", "2024-03-02T12:00:00", ⟨"Lab", "C. Example"⟩⟩]]

/-- The three events of sampleGroups, in encounter order. -/
def sampleEvents : List CalendarEvent :=
  [⟨⟨⟨2024, 3, 1, 9, 0, 0⟩, "UTC"⟩, ⟨⟨2024, 3, 1, 10, 0, 0⟩, "UTC"⟩,
      "Seminar", "A. Example"⟩,
    ⟨⟨⟨2024, 3, 2, 9, 0, 0⟩, "UTC"⟩, ⟨⟨2024, 3, 2, 10, 0, 0⟩, "UTC"⟩,
      "Lecture", "B. Example"⟩,
    ⟨⟨⟨2024, 3, 2, 11, 0, 0⟩, "UTC"⟩, ⟨⟨2024, 3, 2, 12, 0, 0⟩, "UTC"⟩,
      "Lab", "C. Example"⟩]

/-- A one-element calendar response whose bookings object has two day keys
(payloads abstracted to numbers). -/
def sampleJresp : List (BookingsElem Nat) :=
  [⟨[("2024-03-01", 10), ("2024-03-02", 20)]⟩]

instance : IsTotal (Nat × String) (fun a b => a.1 ≤ b.1) :=
  ⟨fun a b => Nat.le_total a.1 b.1⟩

instance : IsTrans (Nat × String) (fun a b => a.1 ≤ b.1) :=
  ⟨fun _ _ _ => Nat.le_trans⟩

/-! ## Theorems -/

/-- Indexing a list at each position of `range` of its length walks the list. -/
theorem range_map_get {α : Type} (l : List α) :
    (List.range l.length).map (fun i => l.get? i) = l.map some := by
  induction l with
  | nil => rfl
  | cons a as ih =>
    show (List.range (as.length + 1)).map (fun i => (a :: as).get? i) =
      some a :: as.map some
    rw [List.range_succ_eq_map, List.map_cons, List.map_map]
    show some a :: (List.range as.length).map (fun i => as.get? i) = _
    rw [ih]

/-- The event-appending fold of get_calendar, over one group of bookings. -/
theorem fold_append_eq (g : List Booking) :
    ∀ cal : List CalendarEvent,
      g.foldlM (fun cal b => (get_event b).map (fun event => cal ++ [event])) cal =
        (g.mapM' get_event).map (fun evs => cal ++ evs) := by
  induction g with
  | nil => intro cal; simp
  | cons b gs ih =>
    intro cal
    rw [List.foldlM_cons, List.mapM'_cons]
    cases hb : get_event b with
    | none => simp [hb]
    | some e =>
      cases hm : gs.mapM' get_event with
      | none => simp [hb, hm, ih]
      | some evs => simp [hb, hm, ih]

/-- The inner loop of get_calendar (`for index in range(len(booking))` over
`booking[index]`) maps the group in position order. -/
theorem inner_loop_eq (g : List Booking) (cal : List CalendarEvent) :
    (List.range g.length).foldlM
        (fun cal index =>
          match g.get? index with
          | some b => (get_event b).map (fun event => cal ++ [event])
          | none => none) cal =
      (g.mapM' get_event).map (fun evs => cal ++ evs) := by
  calc (List.range g.length).foldlM
        (fun cal index =>
          match g.get? index with
          | some b => (get_event b).map (fun event => cal ++ [event])
          | none => none) cal
      = ((List.range g.length).map (fun i => g.get? i)).foldlM
          (fun cal o =>
            match o with
            | some b => (get_event b).map (fun event => cal ++ [event])
            | none => none) cal :=
        (List.foldlM_map (fun i => g.get? i)
          (fun cal o =>
            match o with
            | some b => (get_event b).map (fun event => cal ++ [event])
            | none => none) (List.range g.length) cal).symm
    _ = (g.map some).foldlM
          (fun cal o =>
            match o with
            | some b => (get_event b).map (fun event => cal ++ [event])
            | none => none) cal := by rw [range_map_get]
    _ = g.foldlM (fun cal b => (get_event b).map (fun event => cal ++ [event])) cal :=
        List.foldlM_map some
          (fun cal o =>
            match o with
            | some b => (get_event b).map (fun event => cal ++ [event])
            | none => none) g cal
    _ = (g.mapM' get_event).map (fun evs => cal ++ evs) := fold_append_eq g cal

/-- mapM' over Option distributes over append. -/
theorem mapM_option_append {α β : Type} (f : α → Option β) (l₁ l₂ : List α) :
    (l₁ ++ l₂).mapM' f =
      (l₁.mapM' f).bind (fun a => (l₂.mapM' f).map (fun b => a ++ b)) := by
  induction l₁ with
  | nil =>
    cases h₂ : l₂.mapM' f <;> simp [h₂]
  | cons x xs ih =>
    rw [List.cons_append, List.mapM'_cons, List.mapM'_cons]
    cases hx : f x with
    | none => simp [hx]
    | some b =>
      cases hxs : xs.mapM' f with
      | none => simp [hx, hxs, ih]
      | some bs =>
        cases h₂ : l₂.mapM' f <;> simp [hx, hxs, h₂, ih]

/-- The outer loop of get_calendar concatenates the groups in order. -/
theorem outer_loop_eq (bss : List (List Booking)) :
    ∀ cal : List CalendarEvent,
      bss.foldlM
          (fun calendar booking =>
            (List.range booking.length).foldlM
              (fun cal index =>
                match booking.get? index with
                | some b => (get_event b).map (fun event => cal ++ [event])
                | none => none) calendar) cal =
        (bss.flatten.mapM' get_event).map (fun evs => cal ++ evs) := by
  induction bss with
  | nil => intro cal; simp
  | cons g bss ih =>
    intro cal
    rw [List.foldlM_cons, inner_loop_eq, List.flatten_cons, mapM_option_append]
    cases hg : g.mapM' get_event with
    | none => simp [hg]
    | some evs1 =>
      cases hbs : bss.flatten.mapM' get_event with
      | none =>
        have h := ih (cal ++ evs1)
        rw [hbs] at h
        simpa [hg, hbs] using h
      | some evs2 =>
        have h := ih (cal ++ evs1)
        rw [hbs] at h
        simpa [hg, hbs, List.append_assoc] using h

/-- get_calendar is the monadic map of get_event over the flattened input. -/
theorem get_calendar_eq (bss : List (List Booking)) :
    get_calendar bss = bss.flatten.mapM' get_event := by
  unfold get_calendar
  rw [outer_loop_eq]
  cases bss.flatten.mapM' get_event <;> simp

/-- mapM' over Option succeeds exactly on pointwise successes, in order. -/
theorem mapM_option_forall₂ {α β : Type} (f : α → Option β) :
    ∀ (l : List α) (l' : List β),
      l.mapM' f = some l' ↔ List.Forall₂ (fun a b => f a = some b) l l' := by
  intro l
  induction l with
  | nil =>
    intro l'
    simp [List.forall₂_nil_left_iff, eq_comm, pure]
  | cons a as ih =>
    intro l'
    rw [List.mapM'_cons]
    cases hf : f a with
    | none =>
      constructor
      · intro h; simp [hf] at h
      · intro h
        cases h with
        | cons hab _ => rw [hf] at hab; cases hab
    | some b =>
      cases hm : as.mapM' f with
      | none =>
        constructor
        · intro h; simp [hf, hm] at h
        · intro h
          cases h with
          | cons _ htl => rw [(ih _).mpr htl] at hm; cases hm
      | some bs =>
        constructor
        · intro h
          simp [hf, hm] at h
          subst h
          exact List.Forall₂.cons hf ((ih bs).mp hm)
        · intro h
          cases h with
          | cons hab htl =>
            rw [hf] at hab
            cases hab
            rw [(ih _).mpr htl] at hm
            cases hm
            simp [hf]

/-- A member's per-room block is a sublist of the flat-mapped loop body. -/
theorem block_sublist_flatMap {l : List (Nat × String)} {p : Nat × String}
    (hp : p ∈ l) : (per_room_block p).Sublist (l.flatMap per_room_block) := by
  induction l with
  | nil => cases hp
  | cons q l ih =>
    rw [List.flatMap_cons]
    cases hp with
    | head => exact List.sublist_append_left _ _
    | tail _ hmem => exact (ih hmem).trans (List.sublist_append_right _ _)

/-- C1: for every booking whose start_dt and end_dt parse (after replacing the
T separator with a space) as naive timestamps, get_event builds the event by
labeling those very clock components UTC (no conversion), with summary taken
from reservation.booking_reason and organizer from reservation.booked_for_name. -/
theorem get_event_spec (b : Booking) (ns ne : NaiveDT)
    (hs : strptime_Ymd_HMS (replace_T_with_space b.start_dt) = some ns)
    (he : strptime_Ymd_HMS (replace_T_with_space b.end_dt) = some ne) :
    get_event b = some ⟨⟨ns, "UTC"⟩, ⟨ne, "UTC"⟩, b.reservation.booking_reason,
      b.reservation.booked_for_name⟩ := by
  simp [get_event, get_date_time_obj, hs, he]

/-- Witness for C1 at the spec's example: start 2024-03-01T09:00:00,
end 2024-03-01T10:00:00, reason Seminar, booked for A. Example. -/
theorem get_event_spec_witness :
    strptime_Ymd_HMS (replace_T_with_space "2024-03-01T09:00:00") =
      some ⟨2024, 3, 1, 9, 0, 0⟩ ∧
    strptime_Ymd_HMS (replace_T_with_space "2024-03-01T10:00:00") =
      some ⟨2024, 3, 1, 10, 0, 0⟩ ∧
    get_event ⟨"2024-03-01T09:00:00", "2024-03-01T10:00:00", ⟨"Seminar", "A. Example"⟩⟩ =
      some ⟨⟨⟨2024, 3, 1, 9, 0, 0⟩, "UTC"⟩, ⟨⟨2024, 3, 1, 10, 0, 0⟩, "UTC"⟩,
        "Seminar", "A. Example"⟩ :=
  ⟨rfl, rfl, get_event_spec _ _ _ rfl rfl⟩

/-- C2: the query-string contract of build_indico_request: empty parameters
give the path unchanged (with the public-only flag: path?onlypublic=yes), and
non-empty parameters give path, a question mark, and the urlencoded pairs,
with ("onlypublic", "yes") appended before encoding when the flag is set. -/
theorem build_indico_request_contract (path : String)
    (items : List (String × String)) (hne : items ≠ []) :
    build_indico_request path [] false = path ∧
    build_indico_request path [] true = path ++ "?onlypublic=yes" ∧
    build_indico_request path items false = path ++ "?" ++ urlencode items ∧
    build_indico_request path items true =
      path ++ "?" ++ urlencode (items ++ [("onlypublic", "yes")]) := by
  refine ⟨rfl, ?_, ?_, ?_⟩
  · calc build_indico_request path [] true
        = path ++ "?" ++ "onlypublic=yes" := rfl
      _ = path ++ ("?" ++ "onlypublic=yes") := String.append_assoc ..
      _ = path ++ "?onlypublic=yes" := rfl
  · simp [build_indico_request, hne]
  · simp [build_indico_request]

/-- Witness for C2 at the spec's example pair list. -/
theorem build_indico_request_contract_witness :
    build_indico_request "/rooms/api/calendar"
        [("start_date", "2024-01-01"), ("end_date", "2024-01-31")] false =
      "/rooms/api/calendar" ++ "?" ++
        urlencode [("start_date", "2024-01-01"), ("end_date", "2024-01-31")] ∧
    urlencode [("start_date", "2024-01-01"), ("end_date", "2024-01-31")] =
      "start_date=2024-01-01&end_date=2024-01-31" :=
  ⟨(build_indico_request_contract "/rooms/api/calendar" _ (by simp)).2.2.1, rfl⟩

/-- C8: when the response body is not parseable as JSON, get_jresp prints the
diagnostic "Error parsing JSON response!" and terminates the run; no value is
returned to its caller on that path. -/
theorem get_jresp_fatal {α : Type} (parsed : Option α) (h : parsed = none) :
    get_jresp parsed = .fatal "Error parsing JSON response!" ∧
    ∀ a : α, get_jresp parsed ≠ .ok a := by
  subst h
  exact ⟨rfl, fun a hc => by cases hc⟩

/-- Witness for C8: an unparseable body. -/
theorem get_jresp_fatal_witness :
    get_jresp (none : Option Nat) = .fatal "Error parsing JSON response!" ∧
    ∀ a : Nat, get_jresp (none : Option Nat) ≠ .ok a :=
  get_jresp_fatal none rfl

/-- C10: get_room_ids ignores its api_token parameter: the request it issues
is the same for any two argument values, and its Authorization header carries
the module-level API_TOKEN global. -/
theorem get_room_ids_token_param_ignored (API_TOKEN indico_instance : String)
    (a1 a2 : Option String) :
    get_room_ids_request API_TOKEN indico_instance a1 =
      get_room_ids_request API_TOKEN indico_instance a2 ∧
    ("Authorization", "Bearer " ++ API_TOKEN) ∈
      (get_room_ids_request API_TOKEN indico_instance a1).headers := by
  refine ⟨rfl, ?_⟩
  simp [get_room_ids_request, exec_get_request, req_headers, pyShowOpt]

/-- C3: whenever get_calendar succeeds, the produced calendar holds exactly
the mapped event of every booking, in iteration order (outer group order,
then inner position order), with no sorting or deduplication, and the number
of events equals the sum of the lengths of the inner groups. -/
theorem get_calendar_spec (bss : List (List Booking)) (evs : List CalendarEvent)
    (h : get_calendar bss = some evs) :
    List.Forall₂ (fun b event => get_event b = some event) bss.flatten evs ∧
    evs.length = (bss.map List.length).sum := by
  rw [get_calendar_eq] at h
  have hf := (mapM_option_forall₂ get_event bss.flatten evs).mp h
  refine ⟨hf, ?_⟩
  rw [← hf.length_eq, List.length_flatten]

/-- Witness for C3: two groups of sizes one and two give three events in
encounter order. -/
theorem get_calendar_spec_witness :
    get_calendar sampleGroups = some sampleEvents ∧
    List.Forall₂ (fun b event => get_event b = some event)
      sampleGroups.flatten sampleEvents ∧
    sampleEvents.length = (sampleGroups.map List.length).sum :=
  ⟨rfl, (get_calendar_spec sampleGroups sampleEvents rfl).1,
    (get_calendar_spec sampleGroups sampleEvents rfl).2⟩

/-- C4: for a finite id-to-name mapping (distinct ids), the index file is
exactly one line per room, formatted by room_line, in ascending order of the
numeric room id. -/
theorem index_file_spec (rooms : List (Nat × String))
    (h : (rooms.map Prod.fst).Nodup) :
    (index_lines rooms).Perm (rooms.map room_line) ∧
    ((sortedRooms rooms).map Prod.fst).Sorted (· < ·) ∧
    index_file rooms = String.join (index_lines rooms) := by
  refine ⟨(List.perm_insertionSort _ rooms).map room_line, ?_, rfl⟩
  have hperm : (sortedRooms rooms).Perm rooms := List.perm_insertionSort _ rooms
  have hs : ((sortedRooms rooms).map Prod.fst).Sorted (· ≤ ·) :=
    List.Pairwise.map Prod.fst (fun _ _ hab => hab)
      (List.sorted_insertionSort (fun a b : Nat × String => a.1 ≤ b.1) rooms)
  have hn : ((sortedRooms rooms).map Prod.fst).Nodup :=
    ((hperm.map Prod.fst).nodup_iff).mpr h
  exact hs.lt_of_le hn

/-- Witness for C4 at the spec's example room set: the sorted index puts
"1: Office" before "3: Lab A". -/
theorem index_file_spec_witness :
    (([(3, "Lab A"), (1, "Office")] : List (Nat × String)).map Prod.fst).Nodup ∧
    ((index_lines [(3, "Lab A"), (1, "Office")]).Perm
        ([(3, "Lab A"), (1, "Office")].map room_line) ∧
      ((sortedRooms [(3, "Lab A"), (1, "Office")]).map Prod.fst).Sorted (· < ·) ∧
      index_file [(3, "Lab A"), (1, "Office")] =
        String.join (index_lines [(3, "Lab A"), (1, "Office")])) ∧
    index_lines [(3, "Lab A"), (1, "Office")] = ["1: Office\n", "3: Lab A\n"] ∧
    index_file [(3, "Lab A"), (1, "Office")] = "1: Office\n3: Lab A\n" :=
  ⟨by decide, index_file_spec _ (by decide), by decide, by decide⟩

/-- C5: get_bookings issues a POST whose body is the JSON object with the
single room id and whose query string carries start_date and end_date, and
returns the values of the bookings field of element 0 of the response array,
as a list, in the order the JSON object yields them. -/
theorem get_bookings_spec (indico_instance : String) (room_id : Nat)
    (start_date end_date : String) (api_token : Option String)
    {β : Type} (jresp : List (BookingsElem β)) (elem0 : BookingsElem β)
    (h0 : jresp.get? 0 = some elem0) :
    (get_bookings_request indico_instance room_id start_date end_date api_token).method =
      .post ∧
    (get_bookings_request indico_instance room_id start_date end_date api_token).body =
      some ("\x7b\"room_ids\": [" ++ toString room_id ++ "]\x7d") ∧
    (get_bookings_request indico_instance room_id start_date end_date api_token).url =
      indico_instance ++ ("/rooms/api/calendar" ++ "?" ++
        urlencode [("start_date", start_date), ("end_date", end_date)]) ∧
    get_bookings_result jresp = some (elem0.bookings.map Prod.snd) := by
  refine ⟨rfl, rfl, rfl, ?_⟩
  rw [List.get?_eq_getElem?] at h0
  simp [get_bookings_result, h0]

/-- Witness for C5 on a one-element response whose bookings object has two
day keys. -/
theorem get_bookings_spec_witness :
    sampleJresp.get? 0 = some ⟨[("2024-03-01", 10), ("2024-03-02", 20)]⟩ ∧
    (get_bookings_request "https://indico.example" 5 "2024-03-01" "2024-03-31"
        (some "tok")).body = some "\x7b\"room_ids\": [5]\x7d" ∧
    get_bookings_result sampleJresp = some [10, 20] :=
  ⟨rfl,
    (get_bookings_spec "https://indico.example" 5 "2024-03-01" "2024-03-31"
      (some "tok") sampleJresp ⟨[("2024-03-01", 10), ("2024-03-02", 20)]⟩ rfl).2.1,
    (get_bookings_spec "https://indico.example" 5 "2024-03-01" "2024-03-31"
      (some "tok") sampleJresp ⟨[("2024-03-01", 10), ("2024-03-02", 20)]⟩ rfl).2.2.2⟩

/-- C6 counterexample: with rooms 1 and 3, room 1's index line (trace
position 6) is written before room 3's calendar file (trace position 9), so
part of the index file is written before every per-room calendar file has
been written, contradicting the claim. -/
theorem driver_index_interleaved_counterexample :
    (main_trace [(1, "Office"), (3, "Lab A")]).get? 6 =
      some (.indexLineWritten 1) ∧
    (main_trace [(1, "Office"), (3, "Lab A")]).get? 9 =
      some (.calendarFileWritten 3) ∧
    6 < 9 :=
  ⟨by decide, by decide, by decide⟩

/-- C6 amended: the driver is strictly sequential with no retry, skip or
parallelism: it fetches the room list, creates the output directory, opens
(truncates) the index file, and then for each room in ascending id order
fetches bookings, builds the calendar, writes the room's calendar file, and
immediately appends that room's index line; so each room's index line is
written right after that room's own calendar file rather than after the last
room's. -/
theorem driver_trace_spec (rooms : List (Nat × String)) (p : Nat × String)
    (hp : p ∈ sortedRooms rooms) :
    main_trace rooms =
      [.httpGetRooms, .mkdirIcalendars, .indexOpened] ++
        (sortedRooms rooms).flatMap per_room_block ∧
    [Ev.httpPostBookings p.1, .calendarBuilt p.1, .calendarFileWritten p.1,
      .indexLineWritten p.1].Sublist (main_trace rooms) := by
  refine ⟨rfl, ?_⟩
  exact (block_sublist_flatMap hp).trans (List.sublist_append_right _ _)

/-- Witness for C6's amended claim on the two-room example. -/
theorem driver_trace_spec_witness :
    (1, "Office") ∈ sortedRooms [(1, "Office"), (3, "Lab A")] ∧
    (main_trace [(1, "Office"), (3, "Lab A")] =
      [.httpGetRooms, .mkdirIcalendars, .indexOpened] ++
        (sortedRooms [(1, "Office"), (3, "Lab A")]).flatMap per_room_block ∧
    [Ev.httpPostBookings 1, .calendarBuilt 1, .calendarFileWritten 1,
      .indexLineWritten 1].Sublist (main_trace [(1, "Office"), (3, "Lab A")])) :=
  ⟨by decide, driver_trace_spec [(1, "Office"), (3, "Lab A")] (1, "Office") (by decide)⟩

/-- C7: for every configuration mapping holding the four required keys, the
loader's record fields equal the file's values exactly (a verbatim
round-trip, the date strings included). -/
theorem config_roundtrip (file : List (String × String)) (i a s e : String)
    (hi : file.lookup "indico_instance" = some i)
    (ha : file.lookup "api_token" = some a)
    (hs : file.lookup "start_date" = some s)
    (he : file.lookup "end_date" = some e) :
    config_extract file = .ok ⟨i, a, s, e⟩ := by
  simp [config_extract, hi, ha, hs, he]

/-- Witness for C7 on a concrete configuration file. -/
theorem config_roundtrip_witness :
    ([("indico_instance", "https://indico.example"), ("api_token", "tok"),
        ("start_date", "2024-01-01"), ("end_date", "2024-01-31")] :
      List (String × String)).lookup "start_date" = some "2024-01-01" ∧
    config_extract
        [("indico_instance", "https://indico.example"), ("api_token", "tok"),
          ("start_date", "2024-01-01"), ("end_date", "2024-01-31")] =
      .ok ⟨"https://indico.example", "tok", "2024-01-01", "2024-01-31"⟩ :=
  ⟨rfl, config_roundtrip _ _ _ _ _ rfl rfl rfl rfl⟩

/-- C9: a malformed configuration file prints the parse error and the run
aborts with no network call made; a configuration missing a required key
aborts with a KeyError-equivalent naming that key, again before any network
call, and no default value is ever substituted. -/
theorem config_errors_abort (exc : String) (file : List (String × String))
    (rooms : List (Nat × String)) (k : String)
    (hk : config_extract file = .error k) :
    run_driver (.error exc) rooms = [.printed exc, .exited] ∧
    (∀ ev ∈ run_driver (.error exc) rooms, isNetworkEv ev = false) ∧
    run_driver (.ok file) rooms = [.exited] ∧
    (∀ ev ∈ run_driver (.ok file) rooms, isNetworkEv ev = false) ∧
    (file.lookup "indico_instance" = none →
      ∀ c : Config, config_extract file ≠ .ok c) := by
  refine ⟨rfl, ?_, ?_, ?_, ?_⟩
  · intro ev hev
    simp only [run_driver, List.mem_cons, List.not_mem_nil, or_false] at hev
    rcases hev with h | h <;> subst h <;> rfl
  · simp [run_driver, hk]
  · intro ev hev
    simp only [run_driver, hk, List.mem_cons, List.not_mem_nil, or_false] at hev
    subst hev; rfl
  · intro hnone c hc
    simp [config_extract, hnone] at hc

/-- Witness for C9: a parse failure and a file missing indico_instance. -/
theorem config_errors_abort_witness :
    config_extract [("api_token", "tok")] = .error "indico_instance" ∧
    (run_driver (.error "could not parse config.yaml") [(1, "Office")] =
        [.printed "could not parse config.yaml", .exited] ∧
      (∀ ev ∈ run_driver (.error "could not parse config.yaml") [(1, "Office")],
        isNetworkEv ev = false) ∧
      run_driver (.ok [("api_token", "tok")]) [(1, "Office")] = [.exited] ∧
      (∀ ev ∈ run_driver (.ok [("api_token", "tok")]) [(1, "Office")],
        isNetworkEv ev = false) ∧
      (([("api_token", "tok")] : List (String × String)).lookup "indico_instance" =
          none →
        ∀ c : Config, config_extract [("api_token", "tok")] ≠ .ok c)) :=
  ⟨rfl, config_errors_abort "could not parse config.yaml" [("api_token", "tok")]
    [(1, "Office")] "indico_instance" rfl⟩

end IndicoIcs
